import Mathlib

/-!
Shallow embedding of the client-side cache-and-synchronization layer of the
membership-platform front end, translated from `src/services/storageService.ts`.

Modelling conventions:
* The module-level mutable `CACHE` object becomes an explicit `CacheState`
  value threaded through every operation; each service function becomes a pure
  function from the pre-state (plus its inputs and the outcome of the Gateway
  call it performs) to its result and post-state.
* `Date.now()` becomes an explicit `now : Nat` argument (milliseconds).
* A Gateway (supabase) query that the code awaits is modelled by an input
  describing its outcome: `Option (List _)` where `none` is the thrown
  `GatewayError` (for the read paths whose `catch` swallows it), or a `Bool`
  success flag for write calls.  The wire-to-domain field mappers
  (`mapProfileToMember`, `mapPostToApp`, the training and message mappers) are
  pure per-record functions applied before any cache write; since no claim
  below concerns an individual field default, Gateway responses are taken
  post-mapping, except for `getCommentsForPost` whose mapping is part of the
  claimed behaviour and is embedded explicitly.
* `localStorage` key `pr_local_comments` becomes an explicit
  `List LocalComment` value.
* Operations that rethrow the Gateway error (`addPost`,
  `deleteDiscussionMessage`, ...) return `Except Unit _` paired with the
  post-state; the error branch carries the pre-state because the `throw`
  happens before any cache mutation in the source.
* JS timestamps compare with `-` on numbers; `Nat` truncated subtraction
  agrees with the source on every reachable state (`now ≥ timestamp`), and on
  unreachable ones both sides deem the entry fresh.
-/

/-- Member location, reconstructed from the fields `mapProfileToMember`
produces (`types.ts` itself is not among the provided sources; coordinates are
modelled as integers since no verified claim computes with them). -/
structure MemberLocation where
  lat : Int
  lng : Int
  address : String
  city : String
deriving Repr, DecidableEq

/-- Domain member record, fields as produced by `mapProfileToMember`. -/
structure Member where
  id : String
  name : String
  email : String
  businessName : String
  sector : String
  location : MemberLocation
  avatar : String
  joinedDate : String
  status : String
  trainingProgress : Nat
  badges : List String
  role : String
  completedTrainings : List String
deriving Repr, DecidableEq

/-- Domain comment record, fields as produced inside `getCommentsForPost`. -/
structure Comment where
  id : String
  authorName : String
  content : String
  timestamp : String
deriving Repr, DecidableEq

/-- Domain post record, fields as produced by `mapPostToApp`. -/
structure Post where
  id : String
  authorId : String
  content : String
  type : String
  likes : Nat
  comments : Nat
  timestamp : String
  image : Option String
  likedBy : List String
  commentsList : List Comment
  authorName : String
  authorAvatar : String
deriving Repr, DecidableEq

/-- Domain training record, fields as produced by the mapper in
`getTrainings`. -/
structure TrainingResource where
  id : String
  title : String
  description : String
  type : String
  url : String
  duration : String
  dateAdded : String
  authorName : String
deriving Repr, DecidableEq

/-- Domain chat message record, fields as produced by the mapper in
`getDiscussionMessages` / `addDiscussionMessage`; `timestamp` holds the raw
`created_at` string. -/
structure DiscussionMessage where
  id : String
  authorId : String
  authorName : String
  authorAvatar : String
  content : String
  timestamp : String
  displayTime : String
deriving Repr, DecidableEq

/-- A record of the `pr_local_comments` fallback list in `localStorage`,
exactly the object literal built in the `catch` branch of `addComment`. -/
structure LocalComment where
  id : String
  post_id : String
  author_id : Option String
  content : String
  created_at : String
  is_local : Bool
deriving Repr, DecidableEq

/-- Wire comment row as selected by `getCommentsForPost`
(`*, profiles(name)`); `profileName` is `profiles?.name`. -/
structure DbComment where
  id : String
  content : String
  created_at : String
  profileName : Option String
deriving Repr, DecidableEq

/-- Modelled from the spec: the static fallback datasets `MOCK_MEMBERS`,
`MOCK_POSTS` and `MOCK_TRAININGS` live in `constants.ts`, which is not among
the provided sources.  The spec describes them only as a caller-supplied
static fallback dataset, so arbitrary concrete data stands in; no claim
depends on their contents, only on which dataset an operation returns. -/
def MOCK_MEMBERS : List Member :=
  [{ id := "mock-member-1", name := "Membre Demo", email := "demo@example.com",
     businessName := "Demo SARL", sector := "Agro", location := ⟨0, 0, "", "Kinshasa"⟩,
     avatar := "", joinedDate := "01/01/2024", status := "En Formation",
     trainingProgress := 0, badges := [], role := "MEMBER", completedTrainings := [] }]

/-- Modelled from the spec: static fallback posts (see `MOCK_MEMBERS`). -/
def MOCK_POSTS : List Post :=
  [{ id := "mock-post-1", authorId := "mock-member-1", content := "Bienvenue",
     type := "INFO", likes := 0, comments := 0, timestamp := "1 janv.",
     image := none, likedBy := [], commentsList := [],
     authorName := "Membre Cluster", authorAvatar := "" }]

/-- Modelled from the spec: static fallback trainings (see `MOCK_MEMBERS`). -/
def MOCK_TRAININGS : List TrainingResource :=
  [{ id := "mock-training-1", title := "Formation Demo", description := "",
     type := "VIDEO", url := "", duration := "10min", dateAdded := "01/01/2024",
     authorName := "Admin" }]

/-- One slot of the module-level `CACHE` object:
`{ data: T[] | null, timestamp: number }`. -/
structure CacheEntry (α : Type) where
  data : Option (List α)
  timestamp : Nat
deriving Repr, DecidableEq

/-- The whole `CACHE` object, one entry per entity kind. -/
structure CacheState where
  members : CacheEntry Member
  posts : CacheEntry Post
  trainings : CacheEntry TrainingResource
  messages : CacheEntry DiscussionMessage
deriving Repr, DecidableEq

/-- `const CACHE_DURATION = 5 * 60 * 1000; // 5 minutes` -/
def CACHE_DURATION : Nat := 5 * 60 * 1000

/-- `isCacheValid`: the entry holds data (a JS array is truthy, also when
empty) and was stamped less than `CACHE_DURATION` ago. -/
def isCacheValid (e : CacheEntry α) (now : Nat) : Bool :=
  e.data.isSome && decide (now - e.timestamp < CACHE_DURATION)

/-- The entry `invalidateCache` leaves behind: `{ data: null, timestamp: 0 }`. -/
def invalidatedEntry : CacheEntry α := ⟨none, 0⟩

/-- `invalidateCache('members')` on the whole state. -/
def invalidateMembers (st : CacheState) : CacheState :=
  { st with members := invalidatedEntry }

/-- `invalidateCache('posts')` on the whole state. -/
def invalidatePosts (st : CacheState) : CacheState :=
  { st with posts := invalidatedEntry }

/-- `invalidateCache('trainings')` on the whole state. -/
def invalidateTrainings (st : CacheState) : CacheState :=
  { st with trainings := invalidatedEntry }

/-- `invalidateCache('messages')` on the whole state. -/
def invalidateMessages (st : CacheState) : CacheState :=
  { st with messages := invalidatedEntry }

/-- The initial module state: every entry is `{ null, 0 }`. -/
def initialCache : CacheState :=
  ⟨invalidatedEntry, invalidatedEntry, invalidatedEntry, invalidatedEntry⟩

/-- Outcome of a supabase select as seen by `getDiscussionMessages`, which
distinguishes a thrown error (`err`), a resolved-but-null `data`
(`nullData`, the `if (!data) return []` branch) and a proper row list. -/
inductive GatewayResult (α : Type) where
  | ok (rows : List α)
  | nullData
  | err
deriving Repr, DecidableEq

/-- Result of one read operation: the value returned to the caller, the cache
state after the call, and whether a Gateway query was issued. -/
structure FetchOutcome (α : Type) where
  result : List α
  state : CacheState
  gatewayCalled : Bool
deriving Repr, DecidableEq

/-- `getAllMembers`.  `gw` is the outcome of `supabase.from('profiles')
.select('*')` with rows already through `mapProfileToMember`; `none` covers
both a thrown query error and a null row set (mapping a null would throw into
the same `catch`). -/
def getAllMembers (st : CacheState) (now : Nat) (gw : Option (List Member)) :
    FetchOutcome Member :=
  if isCacheValid st.members now then
    { result := st.members.data.getD [], state := st, gatewayCalled := false }
  else
    match gw with
    | some members =>
        { result := members,
          state := { st with members := ⟨some members, now⟩ },
          gatewayCalled := true }
    | none =>
        { result := match st.members.data with
            | some cached => cached
            | none => MOCK_MEMBERS,
          state := st, gatewayCalled := true }

/-- `getPosts(forceRefresh = false)`; `gw` is the posts select outcome, rows
already through `mapPostToApp`. -/
def getPosts (st : CacheState) (now : Nat) (forceRefresh : Bool)
    (gw : Option (List Post)) : FetchOutcome Post :=
  if !forceRefresh && isCacheValid st.posts now then
    { result := st.posts.data.getD [], state := st, gatewayCalled := false }
  else
    match gw with
    | some posts =>
        { result := posts,
          state := { st with posts := ⟨some posts, now⟩ },
          gatewayCalled := true }
    | none =>
        { result := match st.posts.data with
            | some cached => cached
            | none => MOCK_POSTS,
          state := st, gatewayCalled := true }

/-- `getTrainings`; `gw` is the trainings select outcome, rows already through
the inline training mapper. -/
def getTrainings (st : CacheState) (now : Nat)
    (gw : Option (List TrainingResource)) : FetchOutcome TrainingResource :=
  if isCacheValid st.trainings now then
    { result := st.trainings.data.getD [], state := st, gatewayCalled := false }
  else
    match gw with
    | some trainings =>
        { result := trainings,
          state := { st with trainings := ⟨some trainings, now⟩ },
          gatewayCalled := true }
    | none =>
        { result := match st.trainings.data with
            | some cached => cached
            | none => MOCK_TRAININGS,
          state := st, gatewayCalled := true }

/-- `addPost`: insert, throw on error, else invalidate the posts cache.  The
`post` argument only feeds the insert payload.  The error branch returns the
pre-state because the `throw` precedes any cache access. -/
def addPost (st : CacheState) (post : Post) (gwOk : Bool) :
    Except Unit Unit × CacheState :=
  if gwOk then (Except.ok (), invalidatePosts st)
  else (Except.error (), st)

/-- `updatePost`: optimistically replace the matching record in the posts
cache (when a cached list exists), then issue the Gateway update; its failure
is caught and logged, so the returned state does not depend on `gwOk` and no
error escapes. -/
def updatePost (st : CacheState) (post : Post) (gwOk : Bool) : CacheState :=
  match st.posts.data with
  | some ps =>
      { st with posts :=
          { st.posts with
            data := some (ps.map fun p => if p.id = post.id then post else p) } }
  | none => st

/-- The `pr_local_comments` record built in the `catch` branch of
`addComment`: `` id: `local-${Date.now()}` ``, the post id, author, content,
`created_at = new Date().toISOString()` (passed in as `nowIso`), and
`is_local: true`. -/
def newLocalComment (postId content : String) (authorId : Option String)
    (now : Nat) (nowIso : String) : LocalComment :=
  { id := "local-" ++ toString now, post_id := postId, author_id := authorId,
    content := content, created_at := nowIso, is_local := true }

/-- `addComment`: try the Gateway insert; on success invalidate posts (to
refresh comment counts); on failure append the fallback record to
`pr_local_comments` and still invalidate posts.  Both branches return
normally, hence the result is always `Except.ok`. -/
def addComment (st : CacheState) (locals : List LocalComment)
    (postId content : String) (authorId : Option String)
    (now : Nat) (nowIso : String) (gwOk : Bool) :
    Except Unit (CacheState × List LocalComment) :=
  if gwOk then Except.ok (invalidatePosts st, locals)
  else
    Except.ok (invalidatePosts st,
      locals ++ [newLocalComment postId content authorId now nowIso])

/-- Mapping of one wire comment row inside `getCommentsForPost`; `fmt` stands
for `s => new Date(s).toLocaleTimeString([], ...)`. -/
def mapDbCommentToApp (fmt : String → String) (c : DbComment) : Comment :=
  { id := c.id, authorName := c.profileName.getD "Visiteur",
    content := c.content, timestamp := fmt c.created_at }

/-- Mapping of one queued local comment inside `getCommentsForPost`. -/
def mapLocalCommentToApp (fmt : String → String) (c : LocalComment) : Comment :=
  { id := c.id, authorName := "Moi (Local)", content := c.content,
    timestamp := fmt c.created_at }

/-- `getCommentsForPost`: fetch the rows of the post from the Gateway (the
query filters `post_id` server-side, so `gw` rows all belong to `postId`),
map them, merge with the queued local comments of the same post, and sort the
union with the comparator `a.timestamp.localeCompare(b.timestamp)`, modelled
as lexicographic string order; `List.mergeSort` is stable, as is
`Array.prototype.sort`.  On a thrown query error only the local comments are
returned. -/
def getCommentsForPost (locals : List LocalComment) (postId : String)
    (fmt : String → String) (gw : Option (List DbComment)) : List Comment :=
  match gw with
  | some rows =>
      let dbComments := rows.map (mapDbCommentToApp fmt)
      let localComments :=
        (locals.filter (fun c => c.post_id == postId)).map (mapLocalCommentToApp fmt)
      (dbComments ++ localComments).mergeSort
        (fun a b => decide (a.timestamp ≤ b.timestamp))
  | none =>
      (locals.filter (fun c => c.post_id == postId)).map (mapLocalCommentToApp fmt)

/-- `addTraining`: insert, throw on error, else invalidate trainings. -/
def addTraining (st : CacheState) (training : TrainingResource) (gwOk : Bool) :
    Except Unit Unit × CacheState :=
  if gwOk then (Except.ok (), invalidateTrainings st)
  else (Except.error (), st)

/-- `markTrainingCompleted`: the only cache write is
`invalidateCache('members')`, reached when the profile row was found and the
training was not already in `completed_trainings`; `profileCompleted` is that
fetched list (`none` when no profile row came back, in which case the body in
the `try` does nothing).  The surrounding `catch` only logs. -/
def markTrainingCompleted (st : CacheState) (trainingId : String)
    (profileCompleted : Option (List String)) : CacheState :=
  match profileCompleted with
  | some current =>
      if trainingId ∈ current then st else invalidateMembers st
  | none => st

/-- JS `xs.slice(-limit)`: the last `limit` elements, or the whole array when
`limit = 0` (since `slice(-0)` is `slice(0)`). -/
def sliceLast (xs : List α) (limit : Nat) : List α :=
  if limit = 0 then xs else xs.drop (xs.length - limit)

/-- `getDiscussionMessages(limit, beforeTimestamp?)`.  `gw` is the messages
select outcome (rows through the inline mapper, newest-first over the wire);
the code reverses them to oldest-first, then either seeds the cache (no
cursor) or prepends the id-deduplicated remainder to the cached list (cursor
present), and always returns the full reversed page. -/
def getDiscussionMessages (st : CacheState) (now : Nat) (limit : Nat)
    (beforeTimestamp : Option String) (gw : GatewayResult DiscussionMessage) :
    FetchOutcome DiscussionMessage :=
  if beforeTimestamp.isNone && isCacheValid st.messages now &&
      decide (limit ≤ (st.messages.data.getD []).length) then
    { result := sliceLast (st.messages.data.getD []) limit,
      state := st, gatewayCalled := false }
  else
    match gw with
    | .ok rows =>
        let newMessages := rows.reverse
        match beforeTimestamp with
        | none =>
            { result := newMessages,
              state := { st with messages := ⟨some newMessages, now⟩ },
              gatewayCalled := true }
        | some _ =>
            match st.messages.data with
            | some cached =>
                let existingIds := cached.map (fun m => m.id)
                let uniqueNew :=
                  newMessages.filter (fun m => !(existingIds.contains m.id))
                { result := newMessages,
                  state := { st with messages :=
                    { st.messages with data := some (uniqueNew ++ cached) } },
                  gatewayCalled := true }
            | none =>
                { result := newMessages, state := st, gatewayCalled := true }
    | .nullData => { result := [], state := st, gatewayCalled := true }
    | .err =>
        match st.messages.data, beforeTimestamp with
        | some cached, none =>
            { result := sliceLast cached limit, state := st, gatewayCalled := true }
        | some _, some _ => { result := [], state := st, gatewayCalled := true }
        | none, _ => { result := [], state := st, gatewayCalled := true }

/-- `addDiscussionMessage`: insert and select the formatted row back; on error
throw (pre-state untouched), on success append to the cached list, or seed a
fresh one-element cache when none exists. -/
def addDiscussionMessage (st : CacheState) (now : Nat)
    (gw : Option DiscussionMessage) :
    Except Unit DiscussionMessage × CacheState :=
  match gw with
  | none => (Except.error (), st)
  | some formatted =>
      match st.messages.data with
      | some ms =>
          (Except.ok formatted,
           { st with messages :=
               { st.messages with data := some (ms ++ [formatted]) } })
      | none =>
          (Except.ok formatted,
           { st with messages := ⟨some [formatted], now⟩ })

/-- `deleteDiscussionMessage`: Gateway delete first; on error throw with the
cache untouched (the `throw` precedes the cache update), on success filter the
id out of the cached list when one exists. -/
def deleteDiscussionMessage (st : CacheState) (messageId : String)
    (gwOk : Bool) : Except Unit Unit × CacheState :=
  if gwOk then
    (Except.ok (),
     match st.messages.data with
     | some ms =>
         { st with messages :=
             { st.messages with
               data := some (ms.filter fun m => m.id != messageId) } }
     | none => st)
  else (Except.error (), st)

/-- `syncMessageCache`: wholesale replacement of the messages entry. -/
def syncMessageCache (st : CacheState) (messages : List DiscussionMessage)
    (now : Nat) : CacheState :=
  { st with messages := ⟨some messages, now⟩ }

/-- `getCachedMessages`: `CACHE.messages.data || []`. -/
def getCachedMessages (st : CacheState) : List DiscussionMessage :=
  st.messages.data.getD []

/-- `logout`: sign out (errors only logged), then invalidate all four kinds. -/
def logout (st : CacheState) : CacheState :=
  invalidateMessages (invalidateTrainings (invalidatePosts (invalidateMembers st)))

/-- Cache effect of `register`: after a successful sign-up the profile update
result is not checked and `invalidateCache('members')` runs; every failure
path throws before touching the cache. -/
def registerCacheEffect (st : CacheState) (signUpOk : Bool) :
    Except Unit Unit × CacheState :=
  if signUpOk then (Except.ok (), invalidateMembers st)
  else (Except.error (), st)

/-- `updateUserLocation`: throw on Gateway error (cache untouched); on success
patch the cached member in place when a members list exists (keeping the old
city and address when none are supplied), else invalidate members. -/
def updateUserLocation (st : CacheState) (userId : String) (lat lng : Int)
    (city address : Option String) (gwOk : Bool) :
    Except Unit Unit × CacheState :=
  if gwOk then
    match st.members.data with
    | some ms =>
        (Except.ok (),
         { st with members :=
             { st.members with
               data := some (ms.map fun m =>
                 if m.id = userId then
                   { m with location :=
                       { m.location with
                         lat := lat, lng := lng,
                         city := city.getD m.location.city,
                         address := address.getD m.location.address } }
                 else m) } })
    | none => (Except.ok (), invalidateMembers st)
  else (Except.error (), st)

/-- `updateUser`: throw on Gateway error, else invalidate members (the field
payload does not touch the cache). -/
def updateUser (st : CacheState) (gwOk : Bool) : Except Unit Unit × CacheState :=
  if gwOk then (Except.ok (), invalidateMembers st)
  else (Except.error (), st)

/-- The per-entry invariant of claim C9: a null entry carries timestamp 0. -/
def EntryInv (e : CacheEntry α) : Prop :=
  e.data = none → e.timestamp = 0

/-- The whole-cache invariant: every kind satisfies `EntryInv`. -/
def CacheInv (st : CacheState) : Prop :=
  EntryInv st.members ∧ EntryInv st.posts ∧ EntryInv st.trainings ∧
    EntryInv st.messages

instance (e : CacheEntry α) [DecidableEq α] : Decidable (EntryInv e) := by
  unfold EntryInv; infer_instance

instance (st : CacheState) : Decidable (CacheInv st) := by
  unfold CacheInv; infer_instance

/-- A concrete chat message used by the scenario theorems below. -/
def chatMsg (n : Nat) : DiscussionMessage :=
  { id := "m" ++ toString n, authorId := "u1", authorName := "User",
    authorAvatar := "", content := "msg " ++ toString n,
    timestamp := "t" ++ toString n, displayTime := "" }

/-- State whose messages entry is fresh at time 1000 but holds a single
message (fewer than the default page size of 10). -/
def freshShortMsgState : CacheState :=
  { initialCache with messages := ⟨some [chatMsg 1], 0⟩ }

/-- State for the pagination scenario of §8: the chat cache holds the
oldest-first block `[m5 .. m10]`, freshly stamped at time 0. -/
def chatCacheState : CacheState :=
  { initialCache with messages :=
      ⟨some [chatMsg 5, chatMsg 6, chatMsg 7, chatMsg 8, chatMsg 9, chatMsg 10], 0⟩ }

/-- The Gateway page of the §8 scenario, newest-first over the wire, with
`m5` the boundary duplicate. -/
def chatPageWire : List DiscussionMessage :=
  [chatMsg 5, chatMsg 4, chatMsg 3, chatMsg 2, chatMsg 1]

/-- The §8 scenario call: `getDiscussionMessages(5, before = m5.timestamp)`
against `chatCacheState`, the Gateway delivering `chatPageWire`. -/
def chatScenarioOutcome : FetchOutcome DiscussionMessage :=
  getDiscussionMessages chatCacheState 1000 5 (some (chatMsg 5).timestamp)
    (.ok chatPageWire)

lemma isCacheValid_exists_data {e : CacheEntry α} {now : Nat}
    (h : isCacheValid e now = true) : ∃ xs, e.data = some xs := by
  cases hd : e.data with
  | none => unfold isCacheValid at h; rw [hd] at h; simp at h
  | some xs => exact ⟨xs, rfl⟩

lemma isCacheValid_false_of_expired {e : CacheEntry α} {now : Nat}
    (h : CACHE_DURATION ≤ now - e.timestamp) : isCacheValid e now = false := by
  unfold isCacheValid
  simp [Nat.not_lt.mpr h]

/-- C2: for every read operation (`getPosts`, `getAllMembers`,
`getTrainings`), a Gateway failure never escapes: the call returns the
existing (possibly stale) cached sequence when the cache entry holds data,
and the static fallback dataset otherwise.  The embedded functions are total
(the `catch` in the source is unconditional), so the whole behaviour on
failure is this equation. -/
theorem gateway_failure_fallback (st : CacheState) (now : Nat)
    (forceRefresh : Bool) :
    (getPosts st now forceRefresh none).result = st.posts.data.getD MOCK_POSTS ∧
    (getAllMembers st now none).result = st.members.data.getD MOCK_MEMBERS ∧
    (getTrainings st now none).result = st.trainings.data.getD MOCK_TRAININGS := by
  refine ⟨?_, ?_, ?_⟩
  · unfold getPosts
    cases hb : (!forceRefresh && isCacheValid st.posts now) with
    | true =>
        have hv := (Bool.and_eq_true (!forceRefresh) (isCacheValid st.posts now)).mp hb |>.2
        rcases isCacheValid_exists_data hv with ⟨xs, hxs⟩
        simp [hb, hxs]
    | false => cases hxs : st.posts.data <;> simp [hb, hxs]
  · unfold getAllMembers
    cases hb : isCacheValid st.members now with
    | true =>
        rcases isCacheValid_exists_data hb with ⟨xs, hxs⟩
        simp [hb, hxs]
    | false => cases hxs : st.members.data <;> simp [hb, hxs]
  · unfold getTrainings
    cases hb : isCacheValid st.trainings now with
    | true =>
        rcases isCacheValid_exists_data hb with ⟨xs, hxs⟩
        simp [hb, hxs]
    | false => cases hxs : st.trainings.data <;> simp [hb, hxs]

/-- C8 counterexample: the source has a single shared
`CACHE_DURATION = 5 * 60 * 1000`, not a members TTL of 30 minutes: a
`getAllMembers` call 10 minutes (less than 30 minutes) after a successful
fetch already performs a Gateway call. -/
theorem members_ttl_counterexample :
    CACHE_DURATION ≠ 30 * 60 * 1000 ∧
    600000 < 30 * 60 * 1000 ∧
    (getAllMembers { initialCache with members := ⟨some MOCK_MEMBERS, 0⟩ }
        600000 (some MOCK_MEMBERS)).gatewayCalled = true := by
  decide

/-- C8 amended: every kind shares the single freshness window
`CACHE_DURATION = 5` minutes; a `getAllMembers` call less than 5 minutes
after a successful fetch is served from cache with no Gateway call, and one
at or after 5 minutes performs a Gateway call. -/
theorem members_ttl_policy (st : CacheState) (now : Nat) (ms : List Member)
    (gw : Option (List Member)) (hdata : st.members.data = some ms) :
    CACHE_DURATION = 5 * 60 * 1000 ∧
    (now - st.members.timestamp < CACHE_DURATION →
      getAllMembers st now gw = ⟨ms, st, false⟩) ∧
    (CACHE_DURATION ≤ now - st.members.timestamp →
      (getAllMembers st now gw).gatewayCalled = true) := by
  refine ⟨rfl, ?_, ?_⟩
  · intro hlt
    have hv : isCacheValid st.members now = true := by
      unfold isCacheValid; simp [hdata, hlt]
    unfold getAllMembers
    simp [hv, hdata]
  · intro hge
    unfold getAllMembers
    cases gw <;> simp [isCacheValid_false_of_expired hge]

theorem members_ttl_policy_witness :
    CACHE_DURATION = 5 * 60 * 1000 ∧
    getAllMembers { initialCache with members := ⟨some MOCK_MEMBERS, 0⟩ }
        1000 none = ⟨MOCK_MEMBERS, { initialCache with members := ⟨some MOCK_MEMBERS, 0⟩ }, false⟩ ∧
    (getAllMembers { initialCache with members := ⟨some MOCK_MEMBERS, 0⟩ }
        300000 none).gatewayCalled = true := by
  have h := members_ttl_policy
    { initialCache with members := ⟨some MOCK_MEMBERS, 0⟩ } 1000 MOCK_MEMBERS none rfl
  have h2 := members_ttl_policy
    { initialCache with members := ⟨some MOCK_MEMBERS, 0⟩ } 300000 MOCK_MEMBERS none rfl
  exact ⟨h.1, h.2.1 (by decide), h2.2.2 (by decide)⟩

/-- C10: `deleteDiscussionMessage` is atomic with respect to the cache: on
Gateway failure it throws and the messages entry is exactly the pre-state;
on success it filters the id out of the cached list (a no-op when the id is
absent there or when no list is cached), never touching the timestamp. -/
theorem deleteDiscussionMessage_atomicity (st : CacheState) (messageId : String) :
    deleteDiscussionMessage st messageId false = (Except.error (), st) ∧
    (∀ ms, st.messages.data = some ms →
      deleteDiscussionMessage st messageId true =
        (Except.ok (), { st with messages :=
            { st.messages with data := some (ms.filter fun m => m.id != messageId) } })) ∧
    (∀ ms, st.messages.data = some ms → messageId ∉ ms.map DiscussionMessage.id →
      (deleteDiscussionMessage st messageId true).2 = st) ∧
    (st.messages.data = none →
      deleteDiscussionMessage st messageId true = (Except.ok (), st)) := by
  obtain ⟨mem, po, tr, ⟨d, ts⟩⟩ := st
  refine ⟨rfl, ?_, ?_, ?_⟩
  · intro ms hms
    simp only at hms
    subst hms
    rfl
  · intro ms hms hnot
    simp only at hms
    subst hms
    have : ms.filter (fun m => m.id != messageId) = ms := by
      apply List.filter_eq_self.mpr
      intro m hm
      have : m.id ≠ messageId := fun he => hnot (he ▸ List.mem_map_of_mem _ hm)
      simpa using this
    simp [deleteDiscussionMessage, this]
  · intro hd
    simp only at hd
    subst hd
    rfl

theorem deleteDiscussionMessage_atomicity_witness :
    deleteDiscussionMessage chatCacheState "m5" false = (Except.error (), chatCacheState) ∧
    (deleteDiscussionMessage chatCacheState "missing" true).2 = chatCacheState := by
  have h := deleteDiscussionMessage_atomicity chatCacheState "m5"
  have h2 := deleteDiscussionMessage_atomicity chatCacheState "missing"
  refine ⟨h.1, h2.2.2.1 [chatMsg 5, chatMsg 6, chatMsg 7, chatMsg 8, chatMsg 9, chatMsg 10] rfl ?_⟩
  decide

/-- C1 counterexample: the messages kind breaks the claim as stated.  At time
1000 the messages entry of `freshShortMsgState` is fresh in the sense of the
claim (data non-null, `now - fetchedAt = 1000 < CACHE_DURATION`), yet a
cursor-less `getDiscussionMessages` with the default `limit = 10` performs a
Gateway call, because the fast path additionally requires the cached list to
hold at least `limit` items. -/
theorem read_freshness_counterexample :
    isCacheValid freshShortMsgState.messages 1000 = true ∧
    (getDiscussionMessages freshShortMsgState 1000 10 none
        (.ok [])).gatewayCalled = true := by
  decide

/-- C1 amended: for members, posts and trainings a read without
`forceRefresh` while the entry is fresh returns exactly the cached sequence
with no Gateway call; for messages the cursor-less fast path additionally
requires the cached list to hold at least `limit` items and returns the most
recent `limit` cached items (`slice(-limit)`); for every kind a read at or
after `CACHE_DURATION` since the last successful fetch performs a Gateway
call. -/
theorem read_freshness_policy (st : CacheState) (now limit : Nat)
    (gwM : Option (List Member)) (gwP : Option (List Post))
    (gwT : Option (List TrainingResource))
    (gwMsg : GatewayResult DiscussionMessage) :
    (∀ xs, st.members.data = some xs → isCacheValid st.members now = true →
      getAllMembers st now gwM = ⟨xs, st, false⟩) ∧
    (∀ xs, st.posts.data = some xs → isCacheValid st.posts now = true →
      getPosts st now false gwP = ⟨xs, st, false⟩) ∧
    (∀ xs, st.trainings.data = some xs → isCacheValid st.trainings now = true →
      getTrainings st now gwT = ⟨xs, st, false⟩) ∧
    (∀ xs, st.messages.data = some xs → isCacheValid st.messages now = true →
      limit ≤ xs.length →
      getDiscussionMessages st now limit none gwMsg = ⟨sliceLast xs limit, st, false⟩) ∧
    (CACHE_DURATION ≤ now - st.members.timestamp →
      (getAllMembers st now gwM).gatewayCalled = true) ∧
    (CACHE_DURATION ≤ now - st.posts.timestamp →
      (getPosts st now false gwP).gatewayCalled = true) ∧
    (CACHE_DURATION ≤ now - st.trainings.timestamp →
      (getTrainings st now gwT).gatewayCalled = true) ∧
    (CACHE_DURATION ≤ now - st.messages.timestamp →
      (getDiscussionMessages st now limit none gwMsg).gatewayCalled = true) := by
  refine ⟨?_, ?_, ?_, ?_, ?_, ?_, ?_, ?_⟩
  · intro xs hdata hv
    unfold getAllMembers
    simp [hv, hdata]
  · intro xs hdata hv
    unfold getPosts
    simp [hv, hdata]
  · intro xs hdata hv
    unfold getTrainings
    simp [hv, hdata]
  · intro xs hdata hv hlen
    unfold getDiscussionMessages
    simp [hv, hdata, hlen]
  · intro hge
    unfold getAllMembers
    cases gwM <;> simp [isCacheValid_false_of_expired hge]
  · intro hge
    unfold getPosts
    cases gwP <;> simp [isCacheValid_false_of_expired hge]
  · intro hge
    unfold getTrainings
    cases gwT <;> simp [isCacheValid_false_of_expired hge]
  · intro hge
    unfold getDiscussionMessages
    rw [isCacheValid_false_of_expired hge]
    cases gwMsg with
    | ok rows => simp
    | nullData => simp
    | err => cases st.messages.data <;> simp

theorem read_freshness_policy_witness :
    getAllMembers { initialCache with members := ⟨some MOCK_MEMBERS, 0⟩ } 1000 none =
      ⟨MOCK_MEMBERS, { initialCache with members := ⟨some MOCK_MEMBERS, 0⟩ }, false⟩ ∧
    getPosts { initialCache with posts := ⟨some MOCK_POSTS, 0⟩ } 1000 false none =
      ⟨MOCK_POSTS, { initialCache with posts := ⟨some MOCK_POSTS, 0⟩ }, false⟩ ∧
    getTrainings { initialCache with trainings := ⟨some MOCK_TRAININGS, 0⟩ } 1000 none =
      ⟨MOCK_TRAININGS, { initialCache with trainings := ⟨some MOCK_TRAININGS, 0⟩ }, false⟩ ∧
    getDiscussionMessages freshShortMsgState 1000 1 none .err =
      ⟨[chatMsg 1], freshShortMsgState, false⟩ ∧
    (getDiscussionMessages freshShortMsgState 300000 1 none .err).gatewayCalled = true := by
  refine ⟨?_, ?_, ?_, ?_, ?_⟩
  · exact (read_freshness_policy _ 1000 0 none none none .err).1 MOCK_MEMBERS rfl (by decide)
  · exact (read_freshness_policy _ 1000 0 none none none .err).2.1 MOCK_POSTS rfl (by decide)
  · exact (read_freshness_policy _ 1000 0 none none none .err).2.2.1 MOCK_TRAININGS rfl (by decide)
  · exact (read_freshness_policy freshShortMsgState 1000 1 none none none .err).2.2.2.1
      [chatMsg 1] rfl (by decide) (by decide)
  · exact (read_freshness_policy freshShortMsgState 300000 1 none none none .err).2.2.2.2.2.2.2
      (by decide)

/-- C3: `updatePost` patches the posts cache before the Gateway call and its
result does not depend on the Gateway outcome (failure is caught and only
logged, with no rollback and no exception); the patch replaces the matching
record wholesale and leaves the freshness stamp alone, so a subsequent
`getPosts` without `forceRefresh` while the entry is fresh returns the
sequence containing the patched record. -/
theorem updatePost_optimistic_patch (st : CacheState) (post : Post) (now : Nat)
    (ps : List Post) (gw : Option (List Post))
    (hdata : st.posts.data = some ps)
    (hfresh : isCacheValid st.posts now = true)
    (hmem : post.id ∈ ps.map Post.id) :
    updatePost st post true = updatePost st post false ∧
    (updatePost st post false).posts.data =
      some (ps.map fun p => if p.id = post.id then post else p) ∧
    (updatePost st post false).posts.timestamp = st.posts.timestamp ∧
    post ∈ (getPosts (updatePost st post false) now false gw).result := by
  have hpatch : updatePost st post false =
      { st with posts :=
          { st.posts with
            data := some (ps.map fun p => if p.id = post.id then post else p) } } := by
    unfold updatePost
    rw [hdata]
  refine ⟨rfl, by rw [hpatch], by rw [hpatch], ?_⟩
  have hfresh2 : isCacheValid
      (⟨some (ps.map fun p => if p.id = post.id then post else p),
        st.posts.timestamp⟩ : CacheEntry Post) now = true := by
    unfold isCacheValid at hfresh ⊢
    rw [hdata] at hfresh
    simpa using hfresh
  have hres : (getPosts (updatePost st post false) now false gw).result =
      ps.map fun p => if p.id = post.id then post else p := by
    rw [hpatch]
    unfold getPosts
    simp only [Bool.not_false, Bool.true_and]
    rw [hfresh2]
    simp
  rw [hres]
  rcases List.mem_map.mp hmem with ⟨p, hp, hpid⟩
  exact List.mem_map.mpr ⟨p, hp, by simp [hpid]⟩

theorem updatePost_optimistic_patch_witness :
    updatePost { initialCache with posts := ⟨some MOCK_POSTS, 0⟩ }
        { id := "mock-post-1", authorId := "mock-member-1", content := "Bienvenue",
          type := "INFO", likes := 7, comments := 0, timestamp := "1 janv.",
          image := none, likedBy := ["u1"], commentsList := [],
          authorName := "Membre Cluster", authorAvatar := "" } true =
      updatePost { initialCache with posts := ⟨some MOCK_POSTS, 0⟩ }
        { id := "mock-post-1", authorId := "mock-member-1", content := "Bienvenue",
          type := "INFO", likes := 7, comments := 0, timestamp := "1 janv.",
          image := none, likedBy := ["u1"], commentsList := [],
          authorName := "Membre Cluster", authorAvatar := "" } false ∧
    { id := "mock-post-1", authorId := "mock-member-1", content := "Bienvenue",
      type := "INFO", likes := 7, comments := 0, timestamp := "1 janv.",
      image := none, likedBy := ["u1"], commentsList := [],
      authorName := "Membre Cluster", authorAvatar := "" } ∈
      (getPosts (updatePost { initialCache with posts := ⟨some MOCK_POSTS, 0⟩ }
          { id := "mock-post-1", authorId := "mock-member-1", content := "Bienvenue",
            type := "INFO", likes := 7, comments := 0, timestamp := "1 janv.",
            image := none, likedBy := ["u1"], commentsList := [],
            authorName := "Membre Cluster", authorAvatar := "" } false) 1000 false
          none).result := by
  have h := updatePost_optimistic_patch
    { initialCache with posts := ⟨some MOCK_POSTS, 0⟩ }
    { id := "mock-post-1", authorId := "mock-member-1", content := "Bienvenue",
      type := "INFO", likes := 7, comments := 0, timestamp := "1 janv.",
      image := none, likedBy := ["u1"], commentsList := [],
      authorName := "Membre Cluster", authorAvatar := "" }
    1000 MOCK_POSTS none rfl (by decide) (by decide)
  exact ⟨h.1, h.2.2.2⟩

/-- C5 counterexample: in the §8 scenario the value returned to the caller is
the full reversed fetched page of 5 items, `[m1, m2, m3, m4, m5]`, with the
boundary duplicate `m5` still in it, not the 4-item deduplicated delta the
claim states. -/
theorem pagination_scenario_counterexample :
    chatScenarioOutcome.result.length = 5 ∧
    chatScenarioOutcome.result ≠ [chatMsg 1, chatMsg 2, chatMsg 3, chatMsg 4] := by
  decide

/-- C5 amended: with the chat cache holding oldest-first `[m5 .. m10]` and the
Gateway page `[m5, m4, m3, m2, m1]` (newest-first, `m5` a boundary
duplicate), the merged cache is `[m1 .. m10]` with exactly one `m5`, and the
value returned to the caller is the whole reversed page
`[m1, m2, m3, m4, m5]` (5 items, the duplicate included). -/
theorem pagination_scenario_amended :
    chatScenarioOutcome.state.messages.data =
      some [chatMsg 1, chatMsg 2, chatMsg 3, chatMsg 4, chatMsg 5, chatMsg 6,
            chatMsg 7, chatMsg 8, chatMsg 9, chatMsg 10] ∧
    chatScenarioOutcome.result =
      [chatMsg 1, chatMsg 2, chatMsg 3, chatMsg 4, chatMsg 5] := by
  decide

/-- C4: with a cursor and a cached list present, `getDiscussionMessages`
reverses the fetched page to oldest-first, drops every fetched record whose
id already appears in the cached list, and prepends the remainder; for an id
occurring once in the cache (in particular a boundary duplicate also present
in the page), the merged cache still holds exactly one record with that id. -/
theorem pagination_cursor_dedup_merge (st : CacheState) (now limit : Nat)
    (cursor : String) (page cached : List DiscussionMessage)
    (hdata : st.messages.data = some cached) :
    (getDiscussionMessages st now limit (some cursor) (.ok page)).result = page.reverse ∧
    (getDiscussionMessages st now limit (some cursor) (.ok page)).state.messages.data =
      some ((page.reverse.filter
          (fun m => !((cached.map (fun m => m.id)).contains m.id))) ++ cached) ∧
    (∀ i, i ∈ cached.map (fun m => m.id) →
      (((page.reverse.filter
          (fun m => !((cached.map (fun m => m.id)).contains m.id))) ++ cached).map
        (fun m => m.id)).count i = (cached.map (fun m => m.id)).count i) ∧
    (∀ i, (cached.map (fun m => m.id)).count i = 1 →
      (((page.reverse.filter
          (fun m => !((cached.map (fun m => m.id)).contains m.id))) ++ cached).map
        (fun m => m.id)).count i = 1) := by
  have key : ∀ i, i ∈ cached.map (fun m => m.id) →
      (((page.reverse.filter
          (fun m => !((cached.map (fun m => m.id)).contains m.id))) ++ cached).map
        (fun m => m.id)).count i = (cached.map (fun m => m.id)).count i := by
    intro i hi
    have hnot : i ∉ (page.reverse.filter
        (fun m => !((cached.map (fun m => m.id)).contains m.id))).map
        (fun m => m.id) := by
      intro hmem
      rcases List.mem_map.mp hmem with ⟨m, hmf, hid⟩
      have hm2 := (List.mem_filter.mp hmf).2
      have hnm : m.id ∉ cached.map (fun m => m.id) := by simpa using hm2
      exact hnm (by rwa [hid])
    rw [List.map_append, List.count_append, List.count_eq_zero.mpr hnot]
    omega
  refine ⟨?_, ?_, key, ?_⟩
  · simp [getDiscussionMessages, hdata]
  · simp [getDiscussionMessages, hdata]
  · intro i hcount
    have hi : i ∈ cached.map (fun m => m.id) := List.count_pos_iff.mp (by omega)
    rw [key i hi]
    exact hcount

theorem pagination_cursor_dedup_merge_witness :
    (getDiscussionMessages chatCacheState 1000 5 (some "t5") (.ok chatPageWire)).result =
      chatPageWire.reverse ∧
    (((chatPageWire.reverse.filter
        (fun m => !(([chatMsg 5, chatMsg 6, chatMsg 7, chatMsg 8, chatMsg 9,
            chatMsg 10].map (fun m => m.id)).contains m.id))) ++
        [chatMsg 5, chatMsg 6, chatMsg 7, chatMsg 8, chatMsg 9, chatMsg 10]).map
      (fun m => m.id)).count "m5" = 1 := by
  have h := pagination_cursor_dedup_merge chatCacheState 1000 5 "t5" chatPageWire
    [chatMsg 5, chatMsg 6, chatMsg 7, chatMsg 8, chatMsg 9, chatMsg 10] rfl
  exact ⟨h.1, h.2.2.2 "m5" (by decide)⟩

/-- C6: when the Gateway insert fails, `addComment` still returns
successfully, appending to the `pr_local_comments` durable list a record
carrying the post id, content, author, creation time, the pending marker
`is_local = true`, and the locally generated id `local-` followed by the
current epoch millisecond count, which differs from every id not starting
with those six characters (server-assigned ids in particular). -/
theorem addComment_fallback_queue (st : CacheState) (locals : List LocalComment)
    (postId content : String) (authorId : Option String) (now : Nat)
    (nowIso : String) :
    addComment st locals postId content authorId now nowIso false =
      Except.ok (invalidatePosts st,
        locals ++ [newLocalComment postId content authorId now nowIso]) ∧
    (newLocalComment postId content authorId now nowIso).post_id = postId ∧
    (newLocalComment postId content authorId now nowIso).content = content ∧
    (newLocalComment postId content authorId now nowIso).author_id = authorId ∧
    (newLocalComment postId content authorId now nowIso).created_at = nowIso ∧
    (newLocalComment postId content authorId now nowIso).is_local = true ∧
    (newLocalComment postId content authorId now nowIso).id =
      "local-" ++ toString now ∧
    (∀ serverId : String, serverId.data.take 6 ≠ "local-".data →
      (newLocalComment postId content authorId now nowIso).id ≠ serverId) := by
  refine ⟨rfl, rfl, rfl, rfl, rfl, rfl, rfl, ?_⟩
  intro sid hs heq
  apply hs
  rw [← heq]
  show (("local-" ++ toString now : String)).data.take 6 = "local-".data
  have h1 : (("local-" ++ toString now : String)).data =
      "local-".data ++ (toString now).data := rfl
  rw [h1]
  have h2 : "local-".data.length = 6 := rfl
  rw [← h2]
  exact List.take_left _ _

theorem addComment_fallback_queue_witness :
    addComment initialCache [] "p1" "hello" (some "u1") 42 "2024-01-01" false =
      Except.ok (invalidatePosts initialCache,
        [newLocalComment "p1" "hello" (some "u1") 42 "2024-01-01"]) ∧
    (newLocalComment "p1" "hello" (some "u1") 42 "2024-01-01").is_local = true ∧
    (newLocalComment "p1" "hello" (some "u1") 42 "2024-01-01").id ≠ "f3a9c2" := by
  have h := addComment_fallback_queue initialCache [] "p1" "hello" (some "u1")
    42 "2024-01-01"
  exact ⟨by simpa using h.1, h.2.2.2.2.2.1,
    h.2.2.2.2.2.2.2 "f3a9c2" (by decide)⟩

/-- C7: `getCommentsForPost` returns a permutation of the mapped Gateway
comments of the post together with the queued local comments of the same
post, sorted by the `timestamp` field (so pending local items interleave
with confirmed remote ones), and every queued local comment of the post
appears in the result carrying the local-author marking `Moi (Local)`. -/
theorem getCommentsForPost_merge_sorted (locals : List LocalComment)
    (postId : String) (fmt : String → String) (rows : List DbComment) :
    (getCommentsForPost locals postId fmt (some rows)).Perm
      (rows.map (mapDbCommentToApp fmt) ++
        (locals.filter (fun c => c.post_id == postId)).map
          (mapLocalCommentToApp fmt)) ∧
    (getCommentsForPost locals postId fmt (some rows)).Pairwise
      (fun a b => a.timestamp ≤ b.timestamp) ∧
    (∀ c ∈ locals, c.post_id = postId →
      mapLocalCommentToApp fmt c ∈ getCommentsForPost locals postId fmt (some rows)) ∧
    (∀ c, (mapLocalCommentToApp fmt c).authorName = "Moi (Local)") := by
  have hperm : (getCommentsForPost locals postId fmt (some rows)).Perm
      (rows.map (mapDbCommentToApp fmt) ++
        (locals.filter (fun c => c.post_id == postId)).map
          (mapLocalCommentToApp fmt)) :=
    List.mergeSort_perm _ _
  refine ⟨hperm, ?_, ?_, fun c => rfl⟩
  · have hs := @List.sorted_mergeSort Comment
      (fun a b => decide (a.timestamp ≤ b.timestamp))
      (fun a b c hab hbc => by
        simp only [decide_eq_true_eq] at *
        exact le_trans hab hbc)
      (fun a b => by
        simp only [Bool.or_eq_true, decide_eq_true_eq]
        exact le_total _ _)
      (rows.map (mapDbCommentToApp fmt) ++
        (locals.filter (fun c => c.post_id == postId)).map
          (mapLocalCommentToApp fmt))
    exact hs.imp (fun h => by simpa using h)
  · intro c hc hpid
    apply hperm.mem_iff.mpr
    apply List.mem_append_right
    exact List.mem_map_of_mem _ (List.mem_filter.mpr ⟨hc, by simp [hpid]⟩)

theorem getCommentsForPost_merge_sorted_witness :
    (getCommentsForPost [newLocalComment "p1" "hello" (some "u1") 42 "09:00"]
        "p1" id (some [⟨"c1", "bonjour", "08:30", some "Alice"⟩])).Pairwise
      (fun a b => a.timestamp ≤ b.timestamp) ∧
    mapLocalCommentToApp id (newLocalComment "p1" "hello" (some "u1") 42 "09:00") ∈
      getCommentsForPost [newLocalComment "p1" "hello" (some "u1") 42 "09:00"]
        "p1" id (some [⟨"c1", "bonjour", "08:30", some "Alice"⟩]) := by
  have h := getCommentsForPost_merge_sorted
    [newLocalComment "p1" "hello" (some "u1") 42 "09:00"] "p1" id
    [⟨"c1", "bonjour", "08:30", some "Alice"⟩]
  exact ⟨h.2.1, h.2.2.1 _ (by decide) rfl⟩

lemma entryInv_invalidated : EntryInv (invalidatedEntry : CacheEntry α) :=
  fun _ => rfl

lemma entryInv_some (xs : List α) (t : Nat) :
    EntryInv (⟨some xs, t⟩ : CacheEntry α) := fun h => nomatch h

lemma cacheInv_invalidateMembers {st : CacheState} (h : CacheInv st) :
    CacheInv (invalidateMembers st) :=
  ⟨entryInv_invalidated, h.2.1, h.2.2.1, h.2.2.2⟩

lemma cacheInv_invalidatePosts {st : CacheState} (h : CacheInv st) :
    CacheInv (invalidatePosts st) :=
  ⟨h.1, entryInv_invalidated, h.2.2.1, h.2.2.2⟩

lemma cacheInv_invalidateTrainings {st : CacheState} (h : CacheInv st) :
    CacheInv (invalidateTrainings st) :=
  ⟨h.1, h.2.1, entryInv_invalidated, h.2.2.2⟩

lemma cacheInv_logout (st : CacheState) : CacheInv (logout st) :=
  ⟨entryInv_invalidated, entryInv_invalidated, entryInv_invalidated,
    entryInv_invalidated⟩

lemma cacheInv_getAllMembers {st : CacheState} (h : CacheInv st) (now : Nat)
    (gw : Option (List Member)) : CacheInv (getAllMembers st now gw).state := by
  unfold getAllMembers
  split
  · exact h
  · cases gw with
    | some xs => exact ⟨entryInv_some xs now, h.2.1, h.2.2.1, h.2.2.2⟩
    | none => exact h

lemma cacheInv_getPosts {st : CacheState} (h : CacheInv st) (now : Nat)
    (forceRefresh : Bool) (gw : Option (List Post)) :
    CacheInv (getPosts st now forceRefresh gw).state := by
  unfold getPosts
  split
  · exact h
  · cases gw with
    | some xs => exact ⟨h.1, entryInv_some xs now, h.2.2.1, h.2.2.2⟩
    | none => exact h

lemma cacheInv_getTrainings {st : CacheState} (h : CacheInv st) (now : Nat)
    (gw : Option (List TrainingResource)) :
    CacheInv (getTrainings st now gw).state := by
  unfold getTrainings
  split
  · exact h
  · cases gw with
    | some xs => exact ⟨h.1, h.2.1, entryInv_some xs now, h.2.2.2⟩
    | none => exact h

lemma cacheInv_updatePost {st : CacheState} (h : CacheInv st) (post : Post)
    (gwOk : Bool) : CacheInv (updatePost st post gwOk) := by
  unfold updatePost
  cases hd : st.posts.data with
  | some ps => exact ⟨h.1, entryInv_some _ _, h.2.2.1, h.2.2.2⟩
  | none => exact h

lemma cacheInv_addPost {st : CacheState} (h : CacheInv st) (post : Post)
    (gwOk : Bool) : CacheInv (addPost st post gwOk).2 := by
  unfold addPost
  cases gwOk with
  | false => exact h
  | true => exact cacheInv_invalidatePosts h

lemma cacheInv_addComment {st : CacheState} (h : CacheInv st)
    (locals : List LocalComment) (postId content : String)
    (authorId : Option String) (now : Nat) (nowIso : String) (gwOk : Bool) :
    ∀ st' ls, addComment st locals postId content authorId now nowIso gwOk =
      Except.ok (st', ls) → CacheInv st' := by
  intro st' ls he
  unfold addComment at he
  cases gwOk with
  | false =>
      simp only [Bool.false_eq_true, if_false, Except.ok.injEq, Prod.mk.injEq] at he
      rw [← he.1]
      exact cacheInv_invalidatePosts h
  | true =>
      simp only [if_true, Except.ok.injEq, Prod.mk.injEq] at he
      rw [← he.1]
      exact cacheInv_invalidatePosts h

lemma cacheInv_addTraining {st : CacheState} (h : CacheInv st)
    (training : TrainingResource) (gwOk : Bool) :
    CacheInv (addTraining st training gwOk).2 := by
  unfold addTraining
  cases gwOk with
  | false => exact h
  | true => exact cacheInv_invalidateTrainings h

lemma cacheInv_markTrainingCompleted {st : CacheState} (h : CacheInv st)
    (trainingId : String) (profileCompleted : Option (List String)) :
    CacheInv (markTrainingCompleted st trainingId profileCompleted) := by
  unfold markTrainingCompleted
  cases profileCompleted with
  | none => exact h
  | some current =>
      show CacheInv (if trainingId ∈ current then st else invalidateMembers st)
      by_cases hmem : trainingId ∈ current
      · rw [if_pos hmem]; exact h
      · rw [if_neg hmem]; exact cacheInv_invalidateMembers h

lemma cacheInv_syncMessageCache {st : CacheState} (h : CacheInv st)
    (messages : List DiscussionMessage) (now : Nat) :
    CacheInv (syncMessageCache st messages now) :=
  ⟨h.1, h.2.1, h.2.2.1, entryInv_some messages now⟩

lemma cacheInv_getDiscussionMessages {st : CacheState} (h : CacheInv st)
    (now limit : Nat) (beforeTimestamp : Option String)
    (gw : GatewayResult DiscussionMessage) :
    CacheInv (getDiscussionMessages st now limit beforeTimestamp gw).state := by
  unfold getDiscussionMessages
  split
  · exact h
  · cases gw with
    | nullData => exact h
    | err =>
        cases st.messages.data <;> cases beforeTimestamp <;> exact h
    | ok rows =>
        cases beforeTimestamp with
        | none => exact ⟨h.1, h.2.1, h.2.2.1, entryInv_some _ _⟩
        | some c =>
            cases hd : st.messages.data with
            | some cached => exact ⟨h.1, h.2.1, h.2.2.1, entryInv_some _ _⟩
            | none => exact h

lemma cacheInv_addDiscussionMessage {st : CacheState} (h : CacheInv st)
    (now : Nat) (gw : Option DiscussionMessage) :
    CacheInv (addDiscussionMessage st now gw).2 := by
  unfold addDiscussionMessage
  cases gw with
  | none => exact h
  | some formatted =>
      cases hd : st.messages.data with
      | some ms => exact ⟨h.1, h.2.1, h.2.2.1, entryInv_some _ _⟩
      | none => exact ⟨h.1, h.2.1, h.2.2.1, entryInv_some _ _⟩

lemma cacheInv_deleteDiscussionMessage {st : CacheState} (h : CacheInv st)
    (messageId : String) (gwOk : Bool) :
    CacheInv (deleteDiscussionMessage st messageId gwOk).2 := by
  unfold deleteDiscussionMessage
  cases gwOk with
  | false => exact h
  | true =>
      cases hd : st.messages.data with
      | some ms => exact ⟨h.1, h.2.1, h.2.2.1, entryInv_some _ _⟩
      | none => exact h

lemma cacheInv_registerCacheEffect {st : CacheState} (h : CacheInv st)
    (signUpOk : Bool) : CacheInv (registerCacheEffect st signUpOk).2 := by
  unfold registerCacheEffect
  cases signUpOk with
  | false => exact h
  | true => exact cacheInv_invalidateMembers h

lemma cacheInv_updateUser {st : CacheState} (h : CacheInv st) (gwOk : Bool) :
    CacheInv (updateUser st gwOk).2 := by
  unfold updateUser
  cases gwOk with
  | false => exact h
  | true => exact cacheInv_invalidateMembers h

lemma cacheInv_updateUserLocation {st : CacheState} (h : CacheInv st)
    (userId : String) (lat lng : Int) (city address : Option String)
    (gwOk : Bool) :
    CacheInv (updateUserLocation st userId lat lng city address gwOk).2 := by
  unfold updateUserLocation
  cases gwOk with
  | false => exact h
  | true =>
      cases hd : st.members.data with
      | some ms => exact ⟨entryInv_some _ _, h.2.1, h.2.2.1, h.2.2.2⟩
      | none => exact cacheInv_invalidateMembers h

/-- C9: every cache-touching operation of the service preserves the invariant
that an entry with null data has `fetchedAt = 0`: starting from any state
satisfying `CacheInv`, the post-state of each operation (for every input and
every Gateway outcome) satisfies `CacheInv` again. -/
theorem cache_null_timestamp_invariant (st : CacheState) (h : CacheInv st)
    (now limit : Nat) (gwM : Option (List Member)) (gwP : Option (List Post))
    (gwT : Option (List TrainingResource))
    (gwMsg : GatewayResult DiscussionMessage) (forceRefresh : Bool)
    (post : Post) (training : TrainingResource) (gwOk signUpOk : Bool)
    (beforeTimestamp : Option String) (postId content userId trainingId
      messageId : String) (authorId : Option String) (nowIso : String)
    (profileCompleted : Option (List String)) (lat lng : Int)
    (city address : Option String) (locals : List LocalComment)
    (msgs : List DiscussionMessage) (gwIns : Option DiscussionMessage) :
    CacheInv (logout st) ∧
    CacheInv (registerCacheEffect st signUpOk).2 ∧
    CacheInv (updateUserLocation st userId lat lng city address gwOk).2 ∧
    CacheInv (updateUser st gwOk).2 ∧
    CacheInv (getAllMembers st now gwM).state ∧
    CacheInv (getPosts st now forceRefresh gwP).state ∧
    CacheInv (addPost st post gwOk).2 ∧
    CacheInv (updatePost st post gwOk) ∧
    (∀ st' ls, addComment st locals postId content authorId now nowIso gwOk =
      Except.ok (st', ls) → CacheInv st') ∧
    CacheInv (getTrainings st now gwT).state ∧
    CacheInv (addTraining st training gwOk).2 ∧
    CacheInv (markTrainingCompleted st trainingId profileCompleted) ∧
    CacheInv (syncMessageCache st msgs now) ∧
    CacheInv (getDiscussionMessages st now limit beforeTimestamp gwMsg).state ∧
    CacheInv (addDiscussionMessage st now gwIns).2 ∧
    CacheInv (deleteDiscussionMessage st messageId gwOk).2 :=
  ⟨cacheInv_logout st, cacheInv_registerCacheEffect h signUpOk,
   cacheInv_updateUserLocation h userId lat lng city address gwOk,
   cacheInv_updateUser h gwOk, cacheInv_getAllMembers h now gwM,
   cacheInv_getPosts h now forceRefresh gwP, cacheInv_addPost h post gwOk,
   cacheInv_updatePost h post gwOk,
   cacheInv_addComment h locals postId content authorId now nowIso gwOk,
   cacheInv_getTrainings h now gwT, cacheInv_addTraining h training gwOk,
   cacheInv_markTrainingCompleted h trainingId profileCompleted,
   cacheInv_syncMessageCache h msgs now,
   cacheInv_getDiscussionMessages h now limit beforeTimestamp gwMsg,
   cacheInv_addDiscussionMessage h now gwIns,
   cacheInv_deleteDiscussionMessage h messageId gwOk⟩

theorem cache_null_timestamp_invariant_witness :
    CacheInv (logout chatCacheState) ∧
    CacheInv (getPosts initialCache 1000 false (some MOCK_POSTS)).state ∧
    CacheInv (deleteDiscussionMessage chatCacheState "m5" true).2 := by
  have h := cache_null_timestamp_invariant chatCacheState (by decide)
    1000 10 none (some MOCK_POSTS) none (.ok []) false
    ⟨"p0", "u0", "", "INFO", 0, 0, "", none, [], [], "", ""⟩
    ⟨"t0", "", "", "VIDEO", "", "", "", ""⟩ true true none "p" "c" "u" "t"
    "m5" none "iso" none 0 0 none none [] [] none
  have h2 := cache_null_timestamp_invariant initialCache (by decide)
    1000 10 none (some MOCK_POSTS) none (.ok []) false
    ⟨"p0", "u0", "", "INFO", 0, 0, "", none, [], [], "", ""⟩
    ⟨"t0", "", "", "VIDEO", "", "", "", ""⟩ true true none "p" "c" "u" "t"
    "m5" none "iso" none 0 0 none none [] [] none
  exact ⟨h.1, h2.2.2.2.2.2.1, h.2.2.2.2.2.2.2.2.2.2.2.2.2.2.2⟩
